import Mathlib

/-!
Verification of the resilient OpenMetadata client layer: retry/backoff in
`OpenMetadataClient._make_request` / `AsyncOpenMetadataClient._make_request`
(src/openmetadata/openmetadata_client.py), the tiered TTL cache utilities
(src/openmetadata/client_performance.py), the login exchange
(`_authenticate_with_login`), and the async client's lazy-authentication path.

Conventions of the embedding:
- Decoded JSON response bodies are opaque to the retry and cache logic; they
  are represented by `String`.
- Cache timestamps and TTLs are modelled as integers (the code uses real-valued
  monotonic time; only the order structure is relevant to the claims).
- Backoff sleep durations are modelled as rationals (the code uses the exact
  binary floats 0.5, 1.0, 2.0, which rationals represent exactly).
-/

/-! ### Request executor with retry/backoff

`OpenMetadataClient._make_request` and `AsyncOpenMetadataClient._make_request`
contain the same retry loop line for line; only the suspension mechanism for
the backoff delay differs (`time.sleep` vs `await asyncio.sleep`). The loop is
modelled once and instantiated for both clients.

The environment `env : Nat → AttemptOutcome` gives the outcome of the i-th
attempt of `self.session.request(...)` followed by `response.raise_for_status()`:
either a successfully decoded body, an `httpx.HTTPStatusError` with a status
code, an `httpx.RequestError` (network/timeout), or any other exception.
-/

/-- Outcome of one `session.request` + `raise_for_status` attempt. -/
inductive AttemptOutcome
  | success (body : String)
  | httpStatus (status : Nat) (text : String)
  | requestError (msg : String)
  | otherError (msg : String)
deriving DecidableEq

/-- Final result of `_make_request`. The code raises a single exception class,
`OpenMetadataError`; the constructors record the distinct raise sites, which
the spec names ClientError, TransientError and UnexpectedError. -/
inductive RequestResult
  | ok (body : String)
  | clientError (status : Nat) (text : String)
  | transientError (retries : Nat) (last : AttemptOutcome)
  | unexpectedError (msg : String)
  | maxRetriesFallthrough
deriving DecidableEq

/-- Observable trace of one `_make_request` call: the raised-or-returned
result, the number of attempts issued, and the backoff sleeps performed in
order (in seconds). -/
structure ExecTrace where
  result : RequestResult
  attempts : Nat
  sleeps : List ℚ
deriving DecidableEq

/-- The body of one iteration of the `while retry_count <= max_retries` loop:
dispatch on the attempt's outcome. `rest` is the trace of the remaining loop
iterations, entered through the `continue` of the two retry branches (each
sleeps the current backoff and doubles it for the next iteration). -/
def handle_attempt (maxRetries retryCount : Nat) (backoff : ℚ) (rest : ExecTrace) :
    AttemptOutcome → ExecTrace
  | .success body => ⟨.ok body, 1, []⟩
  | .httpStatus status text =>
    if 400 ≤ status ∧ status < 500 then
      ⟨.clientError status text, 1, []⟩
    else if retryCount < maxRetries then
      ⟨rest.result, rest.attempts + 1, backoff :: rest.sleeps⟩
    else
      ⟨.transientError maxRetries (.httpStatus status text), 1, []⟩
  | .requestError msg =>
    if retryCount < maxRetries then
      ⟨rest.result, rest.attempts + 1, backoff :: rest.sleeps⟩
    else
      ⟨.transientError maxRetries (.requestError msg), 1, []⟩
  | .otherError msg => ⟨.unexpectedError msg, 1, []⟩

/-- The `while retry_count <= max_retries` loop of `_make_request`.
`fuel` counts the remaining iterations allowed by the loop guard, i.e.
`max_retries + 1 - retry_count`; the `fuel = 0` case is the fall-through
`raise OpenMetadataError("Maximum retries exceeded")` after the loop. -/
def make_request_loop (env : Nat → AttemptOutcome) (maxRetries : Nat) :
    Nat → Nat → ℚ → ExecTrace
  | 0, _, _ => ⟨.maxRetriesFallthrough, 0, []⟩
  | fuel + 1, retryCount, backoff =>
    handle_attempt maxRetries retryCount backoff
      (make_request_loop env maxRetries fuel (retryCount + 1) (backoff * 2))
      (env retryCount)

/-- `OpenMetadataClient._make_request`: retry_count = 0, max_retries = 3,
backoff = 0.5, with `time.sleep` for the delays. -/
def sync_make_request (env : Nat → AttemptOutcome) : ExecTrace :=
  make_request_loop env 3 4 0 (1 / 2)

/-- `AsyncOpenMetadataClient._make_request`: the identical loop with
`await asyncio.sleep` for the delays. -/
def async_make_request (env : Nat → AttemptOutcome) : ExecTrace :=
  make_request_loop env 3 4 0 (1 / 2)

/-- Attempt outcomes the code treats as transient: a 5xx `HTTPStatusError`
or a network/timeout `RequestError`. -/
def AttemptOutcome.isTransient : AttemptOutcome → Prop
  | .httpStatus status _ => 500 ≤ status
  | .requestError _ => True
  | _ => False

theorem make_request_loop_succ (env : Nat → AttemptOutcome) (maxRetries fuel retryCount : Nat) (b : ℚ) :
    make_request_loop env maxRetries (fuel + 1) retryCount b =
      handle_attempt maxRetries retryCount b
        (make_request_loop env maxRetries fuel (retryCount + 1) (b * 2))
        (env retryCount) := rfl

theorem make_request_retry_step (env : Nat → AttemptOutcome) (fuel retryCount : Nat) (b : ℚ)
    (h : (env retryCount).isTransient) (hrc : retryCount < 3) :
    make_request_loop env 3 (fuel + 1) retryCount b =
      ⟨(make_request_loop env 3 fuel (retryCount + 1) (b * 2)).result,
       (make_request_loop env 3 fuel (retryCount + 1) (b * 2)).attempts + 1,
       b :: (make_request_loop env 3 fuel (retryCount + 1) (b * 2)).sleeps⟩ := by
  rw [make_request_loop_succ]
  cases henv : env retryCount with
  | success body => rw [henv] at h; simp [AttemptOutcome.isTransient] at h
  | otherError msg => rw [henv] at h; simp [AttemptOutcome.isTransient] at h
  | httpStatus status text =>
    rw [henv] at h
    replace h : 500 ≤ status := h
    simp only [handle_attempt]
    rw [if_neg (by omega), if_pos hrc]
  | requestError msg =>
    simp only [handle_attempt]
    rw [if_pos hrc]

theorem make_request_exhausted (env : Nat → AttemptOutcome) (fuel : Nat) (b : ℚ)
    (h : (env 3).isTransient) :
    make_request_loop env 3 (fuel + 1) 3 b = ⟨.transientError 3 (env 3), 1, []⟩ := by
  rw [make_request_loop_succ]
  cases henv : env 3 with
  | success body => rw [henv] at h; simp [AttemptOutcome.isTransient] at h
  | otherError msg => rw [henv] at h; simp [AttemptOutcome.isTransient] at h
  | httpStatus status text =>
    rw [henv] at h
    replace h : 500 ≤ status := h
    simp only [handle_attempt]
    rw [if_neg (by omega), if_neg (by omega)]
  | requestError msg =>
    simp only [handle_attempt]
    rw [if_neg (by omega)]

/-- C1: when every attempt of a logical call fails with a 5xx status or a
network/timeout error, both the sync and the async executor issue exactly 4
attempts (1 initial + 3 retries), sleep 0.5s, 1s and 2s between attempts
(cumulative 3.5s ≥ 3.5s), and end with the TransientError raise that carries
the last underlying error and the retry count. -/
theorem all_transient_exhausts_retries (env : Nat → AttemptOutcome)
    (h : ∀ i, i ≤ 3 → (env i).isTransient) :
    sync_make_request env = ⟨.transientError 3 (env 3), 4, [1 / 2, 1, 2]⟩ ∧
    async_make_request env = ⟨.transientError 3 (env 3), 4, [1 / 2, 1, 2]⟩ ∧
    (7 : ℚ) / 2 ≤ (sync_make_request env).sleeps.sum := by
  have s0 := make_request_retry_step env 3 0 (1 / 2) (h 0 (by omega)) (by omega)
  have s1 := make_request_retry_step env 2 1 (1 / 2 * 2) (h 1 (by omega)) (by omega)
  have s2 := make_request_retry_step env 1 2 (1 / 2 * 2 * 2) (h 2 (by omega)) (by omega)
  have s3 := make_request_exhausted env 0 (1 / 2 * 2 * 2 * 2) (h 3 (by omega))
  norm_num at s0 s1 s2 s3
  have core : make_request_loop env 3 4 0 (1 / 2) = ⟨.transientError 3 (env 3), 4, [1 / 2, 1, 2]⟩ := by
    rw [s0, s1, s2, s3]
  refine ⟨core, core, ?_⟩
  rw [show sync_make_request env = make_request_loop env 3 4 0 (1 / 2) from rfl, core]
  norm_num

/-- Concrete check of `all_transient_exhausts_retries`: a server answering 503
on every attempt. -/
theorem all_transient_exhausts_retries_witness :
    sync_make_request (fun _ => .httpStatus 503 "Service Unavailable") =
      ⟨.transientError 3 (.httpStatus 503 "Service Unavailable"), 4, [1 / 2, 1, 2]⟩ ∧
    async_make_request (fun _ => .httpStatus 503 "Service Unavailable") =
      ⟨.transientError 3 (.httpStatus 503 "Service Unavailable"), 4, [1 / 2, 1, 2]⟩ ∧
    (7 : ℚ) / 2 ≤ (sync_make_request (fun _ => .httpStatus 503 "Service Unavailable")).sleeps.sum :=
  all_transient_exhausts_retries (fun _ => .httpStatus 503 "Service Unavailable")
    (fun _ _ => by show (500 : Nat) ≤ 503; omega)

/-- C2: a 4xx status on the first attempt makes both executors stop after
exactly 1 attempt with an immediate ClientError and no backoff sleep. -/
theorem client_error_no_retry (env : Nat → AttemptOutcome) (status : Nat) (text : String)
    (henv : env 0 = .httpStatus status text) (h4 : 400 ≤ status) (h5 : status < 500) :
    sync_make_request env = ⟨.clientError status text, 1, []⟩ ∧
    async_make_request env = ⟨.clientError status text, 1, []⟩ := by
  have core : make_request_loop env 3 4 0 (1 / 2) = ⟨.clientError status text, 1, []⟩ := by
    rw [show (4 : Nat) = 3 + 1 from rfl, make_request_loop_succ, henv]
    simp only [handle_attempt]
    rw [if_pos ⟨h4, h5⟩]
  exact ⟨core, core⟩

/-- Concrete check of `client_error_no_retry`: a 404 response. -/
theorem client_error_no_retry_witness :
    sync_make_request (fun _ => .httpStatus 404 "Not Found") =
      ⟨.clientError 404 "Not Found", 1, []⟩ ∧
    async_make_request (fun _ => .httpStatus 404 "Not Found") =
      ⟨.clientError 404 "Not Found", 1, []⟩ :=
  client_error_no_retry (fun _ => .httpStatus 404 "Not Found") 404 "Not Found" rfl
    (by omega) (by omega)

/-! ### Tiered TTL cache (client_performance.py)

`SHORT_CACHE`, `MEDIUM_CACHE` and `LONG_CACHE` are `cachetools.TTLCache`
instances; `CACHE_POLICY` maps a resource-type (first path segment) to one of
them or to `None`. The `TTLCache` behaviour needed here, per cachetools: an
entry inserted at time `t` with time-to-live `ttl` expires once `now ≥ t + ttl`
(membership and item access only see unexpired entries); `__setitem__` first
drops expired entries, replaces any entry with the same key, and while the
cache is over capacity evicts from the eviction end (entries are kept here in
insertion order, oldest first; no claim depends on the eviction order).
Cached values are the decoded JSON results, opaque here (`String`). -/

/-- A `cachetools.TTLCache`: capacity, time-to-live, and the stored entries
`(key, value, expiry-time)`, oldest first. -/
structure TTLCache where
  maxsize : Nat
  ttl : Int
  entries : List (String × String × Int)
deriving DecidableEq

/-- Drop expired entries (those with `now ≥ expiry`). -/
def TTLCache.expire (c : TTLCache) (now : Int) : TTLCache :=
  { c with entries := c.entries.filter fun e => decide (now < e.2.2) }

/-- `cache_key in cache` followed by `cache[cache_key]`: the stored value,
provided its entry has not expired at `now`. -/
def TTLCache.findValid (c : TTLCache) (key : String) (now : Int) : Option String :=
  match c.entries.find? (fun e => e.1 == key) with
  | some e => if now < e.2.2 then some e.2.1 else none
  | none => none

/-- `cache[cache_key] = result`: expire stale entries, replace any entry with
the same key, append the new entry with expiry `now + ttl`, evict oldest
entries while over capacity. -/
def TTLCache.insert (c : TTLCache) (key val : String) (now : Int) : TTLCache :=
  let appended := ((c.expire now).entries.filter fun e => !(e.1 == key)) ++ [(key, val, now + c.ttl)]
  { c with entries := appended.drop (appended.length - c.maxsize) }

/-- The three cache tiers. -/
inductive Tier
  | short
  | medium
  | long
deriving DecidableEq

/-- The module-level cache objects `SHORT_CACHE`, `MEDIUM_CACHE`,
`LONG_CACHE`, as one state value. -/
structure CacheState where
  short_cache : TTLCache
  medium_cache : TTLCache
  long_cache : TTLCache
deriving DecidableEq

/-- The caches as created at module load:
`TTLCache(maxsize=100, ttl=60)`, `TTLCache(maxsize=200, ttl=300)`,
`TTLCache(maxsize=500, ttl=3600)`, all empty. -/
def initialCacheState : CacheState :=
  ⟨⟨100, 60, []⟩, ⟨200, 300, []⟩, ⟨500, 3600, []⟩⟩

def CacheState.tier : CacheState → Tier → TTLCache
  | st, .short => st.short_cache
  | st, .medium => st.medium_cache
  | st, .long => st.long_cache

def CacheState.setTier : CacheState → Tier → TTLCache → CacheState
  | st, .short, c => { st with short_cache := c }
  | st, .medium, c => { st with medium_cache := c }
  | st, .long, c => { st with long_cache := c }

/-- The `CACHE_POLICY` dict. Keys mapped to `None` in the dict (`search`,
`lineage`, `usage`) and keys absent from the dict are indistinguishable through
`CACHE_POLICY.get`, which yields `None` for both; both become `none` here. -/
def CACHE_POLICY : String → Option Tier
  | "classifications" => some .long
  | "teams" => some .long
  | "users" => some .medium
  | "roles" => some .long
  | "policies" => some .long
  | "glossaries" => some .medium
  | "glossaryTerms" => some .medium
  | "tags" => some .long
  | "databaseServices" => some .medium
  | "dashboardServices" => some .medium
  | "messagingServices" => some .medium
  | "pipelineServices" => some .medium
  | "mlmodelServices" => some .medium
  | "databases" => some .medium
  | "schemas" => some .medium
  | "tables" => some .short
  | "dashboards" => some .short
  | "topics" => some .short
  | "pipelines" => some .short
  | "charts" => some .short
  | "mlmodels" => some .short
  | "search" => none
  | "lineage" => none
  | "usage" => none
  | _ => none

/-- Python `endpoint.strip("/")`: remove leading and trailing slashes. -/
def stripSlashes (s : String) : String :=
  String.mk (((s.data.dropWhile (· = '/')).reverse.dropWhile (· = '/')).reverse)

/-- Python `str.split("/")` for a single-character separator: always yields at
least one (possibly empty) part. -/
def splitSlash : List Char → List (List Char)
  | [] => [[]]
  | c :: rest =>
    if c = '/' then [] :: splitSlash rest
    else
      match splitSlash rest with
      | [] => [[c]]
      | h :: t => (c :: h) :: t

/-- `parts = endpoint.strip("/").split("/"); entity_type = parts[0]`
(`split` never returns an empty list, so the `if parts else None` guard in the
source is never taken). -/
def firstSegment (endpoint : String) : String :=
  String.mk ((splitSlash (stripSlashes endpoint).data).headD [])

/-- `get_cache_for_endpoint`: policy lookup on the endpoint's first path
segment. -/
def get_cache_for_endpoint (endpoint : String) : Option Tier :=
  CACHE_POLICY (firstSegment endpoint)

/-- Ordering used by Python `sorted(params.items())` on `(key, value)` string
pairs: lexicographic on the pair. -/
def pairLe (a b : String × String) : Bool :=
  decide (a.1 < b.1) || (decide (a.1 = b.1) && decide (a.2 ≤ b.2))

/-- `pairLe` as a sorting relation. -/
def pairLeR (a b : String × String) : Prop := pairLe a b = true

instance : DecidableRel pairLeR := fun a b =>
  inferInstanceAs (Decidable (pairLe a b = true))

/-- `generate_cache_key`: the endpoint alone when `params` is falsy (absent or
empty), otherwise `endpoint?k1=v1&k2=v2&...` over the sorted items. -/
def generate_cache_key (endpoint : String) (params : List (String × String)) : String :=
  if params = [] then endpoint
  else
    endpoint ++ "?" ++
      String.intercalate "&"
        ((List.insertionSort pairLeR params).map fun kv => kv.1 ++ "=" ++ kv.2)

/-- What one decorated call observably does: the returned value, the cache
state afterwards, how many times the wrapped request function ran (0 or 1),
and whether this call was a cache hit or a stored cache miss (the two
`logger.debug` sites of `with_caching`). -/
structure CachedCallResult where
  value : String
  state : CacheState
  networkCalls : Nat
  hitEvents : Nat
  missEvents : Nat
deriving DecidableEq

/-- The hit/miss branch of `with_caching`, dispatching on the cache lookup
(`cache_key in cache` / `cache[cache_key]`): a hit returns the cached value
untouched; a miss runs the request and stores its result under the key. -/
def cache_serve (net : String) (st : CacheState) (now : Int) (tier : Tier) (key : String) :
    Option String → CachedCallResult
  | some v => ⟨v, st, 0, 1, 0⟩
  | none => ⟨net, st.setTier tier ((st.tier tier).insert key net now), 1, 0, 1⟩

/-- The tier dispatch of `with_caching` (`cache is None` check): no tier means
the request always runs and no cache is read or written. -/
def cache_route (net : String) (endpoint : String) (params : List (String × String))
    (st : CacheState) (now : Int) : Option Tier → CachedCallResult
  | none => ⟨net, st, 1, 0, 0⟩
  | some tier =>
    let key := generate_cache_key endpoint params
    cache_serve net st now tier key ((st.tier tier).findValid key now)

/-- The `with_caching` wrapper around a request function whose result for this
invocation would be `net`. Non-GET methods and endpoints without a cache tier
pass straight through; otherwise serve from the tier cache on a hit, and on a
miss run the request and store the result under the generated key. -/
def with_caching (net : String) (method endpoint : String)
    (params : List (String × String)) (st : CacheState) (now : Int) : CachedCallResult :=
  if method ≠ "GET" then ⟨net, st, 1, 0, 0⟩
  else cache_route net endpoint params st now (get_cache_for_endpoint endpoint)

/-- The `cache = CACHE_POLICY.get(entity_type); if cache: cache.clear()` body
of `clear_cache`. The `if cache:` guard is Python truthiness, false both for
`None` and for an empty cache (clearing an empty cache would be a no-op
anyway). -/
def clear_tier (st : CacheState) : Option Tier → CacheState
  | some tier =>
    if (st.tier tier).entries = [] then st
    else st.setTier tier { st.tier tier with entries := [] }
  | none => st

/-- `clear_cache`: with an entity type, clear the tier cache that type maps
to; with no entity type, clear all three caches. -/
def clear_cache (entity_type : Option String) (st : CacheState) : CacheState :=
  match entity_type with
  | some et => clear_tier st (CACHE_POLICY et)
  | none =>
    { st with
      short_cache := { st.short_cache with entries := [] },
      medium_cache := { st.medium_cache with entries := [] },
      long_cache := { st.long_cache with entries := [] } }

/-- One tier's entry in the dict returned by `get_cache_stats`. -/
structure TierStats where
  size : Nat
  maxsize : Nat
  ttl : Int
  hits : Nat
  misses : Nat
deriving DecidableEq

/-- `get_cache_stats`: `len`, `maxsize` and `ttl` of each cache, plus
`getattr(cache, "hits", 0)` and `getattr(cache, "misses", 0)`. A
`cachetools.TTLCache` defines no `hits` or `misses` attribute, so the
`getattr` default `0` is what both fields always evaluate to. -/
def tierStatsOf (c : TTLCache) : TierStats :=
  ⟨c.entries.length, c.maxsize, c.ttl, 0, 0⟩

structure CacheStats where
  short_cache : TierStats
  medium_cache : TierStats
  long_cache : TierStats
deriving DecidableEq

def get_cache_stats (st : CacheState) : CacheStats :=
  ⟨tierStatsOf st.short_cache, tierStatsOf st.medium_cache, tierStatsOf st.long_cache⟩

/-- One invocation of a `with_caching`-decorated request method. -/
structure CallSpec where
  method : String
  endpoint : String
  params : List (String × String)
  net : String
  now : Int

/-- Run a sequence of decorated calls, returning the final cache state and the
total number of cache hits and of stored cache misses that actually occurred. -/
def runCalls : List CallSpec → CacheState → CacheState × Nat × Nat
  | [], st => (st, 0, 0)
  | c :: rest, st =>
    let r := with_caching c.net c.method c.endpoint c.params st c.now
    let (st', h, m) := runCalls rest r.state
    (st', r.hitEvents + h, r.missEvents + m)

/-! ### Cache lemmas and claims C4, C5, C6, C8, C9, C10 -/

theorem CacheState.tier_setTier_same (st : CacheState) (t : Tier) (c : TTLCache) :
    (st.setTier t c).tier t = c := by
  cases t <;> rfl

theorem CacheState.tier_setTier_of_ne (st : CacheState) (t t' : Tier) (c : TTLCache)
    (h : t' ≠ t) : (st.setTier t c).tier t' = st.tier t' := by
  cases t <;> cases t' <;> first | rfl | exact absurd rfl h

theorem TTLCache.findValid_insert_self (c : TTLCache) (key val : String) (t₁ t₂ : Int)
    (hmax : 1 ≤ c.maxsize) (hlt : t₂ < t₁ + c.ttl) :
    (c.insert key val t₁).findValid key t₂ = some val := by
  have hinsert : (c.insert key val t₁).entries =
      (((c.expire t₁).entries.filter fun e => !(e.1 == key)) ++ [(key, val, t₁ + c.ttl)]).drop
        ((((c.expire t₁).entries.filter fun e => !(e.1 == key)) ++
            [(key, val, t₁ + c.ttl)]).length - c.maxsize) := rfl
  set kept := (c.expire t₁).entries.filter fun e => !(e.1 == key) with hkept
  set k := (kept ++ [(key, val, t₁ + c.ttl)]).length - c.maxsize with hk
  have hklen : (kept ++ [(key, val, t₁ + c.ttl)]).length = kept.length + 1 := by simp
  have hkle : k ≤ kept.length := by omega
  have hdrop : (kept ++ [(key, val, t₁ + c.ttl)]).drop k =
      kept.drop k ++ [(key, val, t₁ + c.ttl)] := by
    rw [List.drop_append_eq_append_drop]
    have hz : k - kept.length = 0 := by omega
    rw [hz]
    simp
  have hnone : (kept.drop k).find? (fun e => e.1 == key) = none := by
    rw [List.find?_eq_none]
    intro x hx
    have hmem : x ∈ kept := List.drop_subset _ _ hx
    have hpred := (List.mem_filter.mp hmem).2
    simp only [Bool.not_eq_true'] at hpred
    simp [hpred]
  unfold TTLCache.findValid
  rw [hinsert, hdrop, List.find?_append, hnone]
  simp only [Option.none_or, List.find?_cons, beq_self_eq_true]
  rw [if_pos hlt]

theorem pairLe_trans (a b c : String × String)
    (hab : pairLe a b = true) (hbc : pairLe b c = true) : pairLe a c = true := by
  simp only [pairLe, Bool.or_eq_true, Bool.and_eq_true, decide_eq_true_eq] at *
  rcases hab with h1 | ⟨h1, h2⟩ <;> rcases hbc with g1 | ⟨g1, g2⟩
  · exact Or.inl (h1.trans g1)
  · exact Or.inl (lt_of_lt_of_le h1 (le_of_eq g1))
  · exact Or.inl (lt_of_le_of_lt (le_of_eq h1) g1)
  · exact Or.inr ⟨h1.trans g1, h2.trans g2⟩

theorem pairLe_total (a b : String × String) : (pairLe a b || pairLe b a) = true := by
  simp only [pairLe, Bool.or_eq_true, Bool.and_eq_true, decide_eq_true_eq]
  rcases lt_trichotomy a.1 b.1 with h | h | h
  · exact Or.inl (Or.inl h)
  · rcases le_total a.2 b.2 with h2 | h2
    · exact Or.inl (Or.inr ⟨h, h2⟩)
    · exact Or.inr (Or.inr ⟨h.symm, h2⟩)
  · exact Or.inr (Or.inl h)

theorem pairLe_antisymm (a b : String × String)
    (hab : pairLe a b = true) (hba : pairLe b a = true) : a = b := by
  simp only [pairLe, Bool.or_eq_true, Bool.and_eq_true, decide_eq_true_eq] at hab hba
  rcases hab with h1 | ⟨h1, h2⟩ <;> rcases hba with g1 | ⟨g1, g2⟩
  · exact absurd g1 (lt_asymm h1)
  · rw [g1] at h1; exact absurd h1 (lt_irrefl _)
  · rw [h1] at g1; exact absurd g1 (lt_irrefl _)
  · exact Prod.ext h1 (le_antisymm h2 g2)

instance : IsTotal (String × String) pairLeR :=
  ⟨fun a b => (Bool.or_eq_true _ _).mp (pairLe_total a b)⟩

instance : IsTrans (String × String) pairLeR :=
  ⟨fun a b c => pairLe_trans a b c⟩

instance : IsAntisymm (String × String) pairLeR :=
  ⟨fun a b => pairLe_antisymm a b⟩

/-- C5: cache-key generation is order-independent: parameter lists that are
equal as maps (permutations of the same key-value pairs) produce identical
keys. -/
theorem generate_cache_key_order_independent (endpoint : String)
    (p₁ p₂ : List (String × String)) (h : p₁.Perm p₂) :
    generate_cache_key endpoint p₁ = generate_cache_key endpoint p₂ := by
  unfold generate_cache_key
  by_cases hnil : p₁ = []
  · subst hnil
    rw [if_pos rfl, if_pos h.symm.eq_nil]
  · have hnil₂ : p₂ ≠ [] := fun he => hnil ((he ▸ h).eq_nil)
    rw [if_neg hnil, if_neg hnil₂]
    have hsort : List.insertionSort pairLeR p₁ = List.insertionSort pairLeR p₂ :=
      List.eq_of_perm_of_sorted
        ((List.perm_insertionSort pairLeR p₁).trans
          (h.trans (List.perm_insertionSort pairLeR p₂).symm))
        (List.sorted_insertionSort pairLeR p₁)
        (List.sorted_insertionSort pairLeR p₂)
    rw [hsort]

/-- Concrete check of `generate_cache_key_order_independent`:
`{a: 1, b: 2}` and `{b: 2, a: 1}` collide to the same key. -/
theorem generate_cache_key_order_independent_witness :
    generate_cache_key "tables" [("a", "1"), ("b", "2")] =
      generate_cache_key "tables" [("b", "2"), ("a", "1")] :=
  generate_cache_key_order_independent "tables" [("a", "1"), ("b", "2")]
    [("b", "2"), ("a", "1")] (List.Perm.swap ("b", "2") ("a", "1") [])

/-- C4: on a cacheable endpoint, a GET that misses stores the decoded result
under its tier and key and costs one network call; repeating it within the
tier's TTL is served from the cache — the second call performs no network
call, returns the first call's value unchanged, and leaves the state
untouched. -/
theorem repeated_get_within_ttl_single_network_call
    (endpoint : String) (params : List (String × String)) (tier : Tier)
    (st₀ : CacheState) (t₁ t₂ : Int) (net net' : String)
    (hpol : get_cache_for_endpoint endpoint = some tier)
    (hmax : 1 ≤ (st₀.tier tier).maxsize)
    (hmiss : (st₀.tier tier).findValid (generate_cache_key endpoint params) t₁ = none)
    (hwithin : t₂ < t₁ + (st₀.tier tier).ttl) :
    with_caching net "GET" endpoint params st₀ t₁ =
      ⟨net, st₀.setTier tier
        ((st₀.tier tier).insert (generate_cache_key endpoint params) net t₁), 1, 0, 1⟩ ∧
    with_caching net' "GET" endpoint params
        (st₀.setTier tier ((st₀.tier tier).insert (generate_cache_key endpoint params) net t₁)) t₂ =
      ⟨net, st₀.setTier tier
        ((st₀.tier tier).insert (generate_cache_key endpoint params) net t₁), 0, 1, 0⟩ := by
  have hget : ¬ ("GET" ≠ "GET") := by simp
  constructor
  · unfold with_caching
    rw [if_neg hget, hpol]
    simp only [cache_route]
    rw [hmiss]
    rfl
  · unfold with_caching
    rw [if_neg hget, hpol]
    simp only [cache_route]
    rw [CacheState.tier_setTier_same,
      TTLCache.findValid_insert_self _ _ _ _ _ hmax hwithin]
    rfl

/-- Concrete check of `repeated_get_within_ttl_single_network_call`:
`get("tables", {"limit": 1})` twice, 30 seconds apart, on the initial caches. -/
theorem repeated_get_within_ttl_single_network_call_witness :
    with_caching "tablesResult" "GET" "tables" [("limit", "1")] initialCacheState 0 =
      ⟨"tablesResult", initialCacheState.setTier .short
        ((initialCacheState.tier .short).insert
          (generate_cache_key "tables" [("limit", "1")]) "tablesResult" 0), 1, 0, 1⟩ ∧
    with_caching "other" "GET" "tables" [("limit", "1")]
        (initialCacheState.setTier .short
          ((initialCacheState.tier .short).insert
            (generate_cache_key "tables" [("limit", "1")]) "tablesResult" 0)) 30 =
      ⟨"tablesResult",
       initialCacheState.setTier .short
        ((initialCacheState.tier .short).insert
          (generate_cache_key "tables" [("limit", "1")]) "tablesResult" 0),
       0, 1, 0⟩ :=
  repeated_get_within_ttl_single_network_call "tables" [("limit", "1")] .short
    initialCacheState 0 30 "tablesResult" "other" (by decide) (by decide) rfl (by decide)

/-- C6: a GET whose endpoint's resource-type is mapped to no cache (search,
lineage, usage — or any type absent from the policy table) always performs the
network call, is never served from a cache, and stores nothing in any tier. -/
theorem uncached_endpoint_always_network (endpoint : String)
    (params : List (String × String)) (st : CacheState) (now : Int) (net : String)
    (h : firstSegment endpoint = "search" ∨ firstSegment endpoint = "lineage" ∨
         firstSegment endpoint = "usage" ∨ CACHE_POLICY (firstSegment endpoint) = none) :
    with_caching net "GET" endpoint params st now = ⟨net, st, 1, 0, 0⟩ := by
  have hnone : get_cache_for_endpoint endpoint = none := by
    unfold get_cache_for_endpoint
    rcases h with h | h | h | h
    · rw [h]; decide
    · rw [h]; decide
    · rw [h]; decide
    · exact h
  unfold with_caching
  rw [if_neg (by simp : ¬ ("GET" ≠ "GET")), hnone]
  rfl

/-- Concrete check of `uncached_endpoint_always_network` on a search endpoint. -/
theorem uncached_endpoint_always_network_witness :
    with_caching "searchResult" "GET" "search/query" [("q", "x")] initialCacheState 5 =
      ⟨"searchResult", initialCacheState, 1, 0, 0⟩ :=
  uncached_endpoint_always_network "search/query" [("q", "x")] initialCacheState 5
    "searchResult" (Or.inl (by decide))

/-- A populated cache state used by concrete checks: entries in all three
tiers. -/
def exampleCacheState : CacheState :=
  ⟨⟨100, 60, [("tables?limit=1", "tablesResult", 60), ("dashboards", "dashboardsResult", 60)]⟩,
   ⟨200, 300, [("users", "usersResult", 300)]⟩,
   ⟨500, 3600, [("tags", "tagsResult", 3600)]⟩⟩

/-- C8: clearing the cache for a resource-type mapped to one tier leaves the
other tiers' caches — their entries, values and TTLs — exactly as they were. -/
theorem clear_by_type_preserves_other_tiers (et : String) (tier : Tier) (st : CacheState)
    (hpol : CACHE_POLICY et = some tier) (t' : Tier) (hne : t' ≠ tier) :
    (clear_cache (some et) st).tier t' = st.tier t' := by
  rw [show clear_cache (some et) st = clear_tier st (CACHE_POLICY et) from rfl, hpol]
  simp only [clear_tier]
  by_cases he : (st.tier tier).entries = []
  · rw [if_pos he]
  · rw [if_neg he, CacheState.tier_setTier_of_ne _ _ _ _ hne]

/-- Concrete check of `clear_by_type_preserves_other_tiers`: clearing
`tables` (short tier) leaves the medium and long tiers untouched. -/
theorem clear_by_type_preserves_other_tiers_witness :
    (clear_cache (some "tables") exampleCacheState).tier .medium =
      exampleCacheState.tier .medium ∧
    (clear_cache (some "tables") exampleCacheState).tier .long =
      exampleCacheState.tier .long :=
  ⟨clear_by_type_preserves_other_tiers "tables" .short exampleCacheState (by decide)
      .medium (by decide),
   clear_by_type_preserves_other_tiers "tables" .short exampleCacheState (by decide)
      .long (by decide)⟩

/-- C10: clear-by-resource-type empties the whole tier cache the type maps to
— including every entry of every other resource-type stored in that tier —
and clears nothing for a type mapped to no cache or absent from the policy
table. -/
theorem clear_by_type_clears_entire_tier (et : String) (st : CacheState) :
    (∀ tier, CACHE_POLICY et = some tier →
      ((clear_cache (some et) st).tier tier).entries = []) ∧
    (CACHE_POLICY et = none → clear_cache (some et) st = st) := by
  constructor
  · intro tier hpol
    rw [show clear_cache (some et) st = clear_tier st (CACHE_POLICY et) from rfl, hpol]
    simp only [clear_tier]
    by_cases he : (st.tier tier).entries = []
    · rw [if_pos he]; exact he
    · rw [if_neg he, CacheState.tier_setTier_same]
  · intro hpol
    rw [show clear_cache (some et) st = clear_tier st (CACHE_POLICY et) from rfl, hpol]
    rfl

/-- Concrete check of `clear_by_type_clears_entire_tier`: clearing `tables`
also evicts the `dashboards` entry sharing the short tier; clearing `search`
clears nothing. -/
theorem clear_by_type_clears_entire_tier_witness :
    ((clear_cache (some "tables") exampleCacheState).tier .short).entries = [] ∧
    clear_cache (some "search") exampleCacheState = exampleCacheState :=
  ⟨(clear_by_type_clears_entire_tier "tables" exampleCacheState).1 .short (by decide),
   (clear_by_type_clears_entire_tier "search" exampleCacheState).2 (by decide)⟩

/-- C9 (amended): `get_cache_stats` reports each tier's current size, capacity
and ttl, but its hit and miss fields are the `getattr(..., 0)` defaults — the
TTL caches keep no hit/miss counters — so both read 0 after any sequence of
calls, whatever hits and misses actually occurred. -/
theorem cache_stats_fields (calls : List CallSpec) (st₀ : CacheState) :
    get_cache_stats (runCalls calls st₀).1 =
      ⟨⟨(runCalls calls st₀).1.short_cache.entries.length,
        (runCalls calls st₀).1.short_cache.maxsize,
        (runCalls calls st₀).1.short_cache.ttl, 0, 0⟩,
       ⟨(runCalls calls st₀).1.medium_cache.entries.length,
        (runCalls calls st₀).1.medium_cache.maxsize,
        (runCalls calls st₀).1.medium_cache.ttl, 0, 0⟩,
       ⟨(runCalls calls st₀).1.long_cache.entries.length,
        (runCalls calls st₀).1.long_cache.maxsize,
        (runCalls calls st₀).1.long_cache.ttl, 0, 0⟩⟩ := rfl

/-- Two GETs of `tables`: the first a stored miss, the second a hit within
TTL. -/
def statsScenario : List CallSpec :=
  [⟨"GET", "tables", [], "tablesResult", 0⟩, ⟨"GET", "tables", [], "tablesResult", 10⟩]

/-- C9 counterexample: after a run in which exactly one cache hit and one
stored miss actually occurred on the short tier, `get_cache_stats` still
reports `hits = 0` and `misses = 0` for that tier. -/
theorem cache_stats_ignore_actual_hits :
    (runCalls statsScenario initialCacheState).2.1 = 1 ∧
    (runCalls statsScenario initialCacheState).2.2 = 1 ∧
    (get_cache_stats (runCalls statsScenario initialCacheState).1).short_cache.hits = 0 ∧
    (get_cache_stats (runCalls statsScenario initialCacheState).1).short_cache.misses = 0 := by
  decide

/-! ### Lazy authentication under concurrent first calls (C3)

`AsyncOpenMetadataClient` constructed with username/password sets
`_needs_authentication = True` and defers login to the first request. Each call
of `_make_request` begins with
`if self._needs_authentication: await self._authenticate_with_login()`.
The flag check and the issuing of the login POST happen in one synchronous
stretch; `await self.session.post(...)` is a suspension point, and only on
resumption does the coroutine set the header and `_needs_authentication =
False`. There is no lock or shared pending-result object around this path.

Each concurrent first caller is a task with three phases: it has not run yet,
it has issued its login POST and awaits the response, or it is past the
authentication prefix. A schedule (list of task indices) interleaves the
tasks' steps; `loginCalls` counts issued login exchanges. -/

inductive TaskPhase
  | notStarted
  | awaitingLogin
  | finished
deriving DecidableEq

structure LazyAuthState where
  needsAuthentication : Bool
  loginCalls : Nat
  header : Option String
  phase : Nat → TaskPhase

/-- Advance task `i` by one atomic step, dispatching on its phase:
a task that has not started checks `_needs_authentication` — if set it issues
the login POST and suspends, otherwise its authentication prefix is done; a
task awaiting its login response resumes, stores the bearer header and clears
the flag. `tok` is the access token the login endpoint returns. -/
def lazyAuthPhaseStep (tok : String) (s : LazyAuthState) (i : Nat) :
    TaskPhase → LazyAuthState
  | .notStarted =>
    if s.needsAuthentication then
      { s with loginCalls := s.loginCalls + 1,
               phase := fun j => if j = i then .awaitingLogin else s.phase j }
    else
      { s with phase := fun j => if j = i then .finished else s.phase j }
  | .awaitingLogin =>
    { s with needsAuthentication := false,
             header := some ("Bearer " ++ tok),
             phase := fun j => if j = i then .finished else s.phase j }
  | .finished => s

def lazyAuthStep (tok : String) (s : LazyAuthState) (i : Nat) : LazyAuthState :=
  lazyAuthPhaseStep tok s i (s.phase i)

def runLazyAuth (tok : String) : List Nat → LazyAuthState → LazyAuthState
  | [], s => s
  | i :: rest, s => runLazyAuth tok rest (lazyAuthStep tok s i)

/-- The client right after `__init__` with username/password: authentication
pending, no login issued, no header, no task has run. -/
def lazyAuthInit : LazyAuthState := ⟨true, 0, none, fun _ => .notStarted⟩

/-- The fully serialized schedule: each of the `n` tasks runs its
authentication prefix to completion before the next task starts. -/
def seqSchedule (n : Nat) : List Nat := (List.range n).flatMap fun i => [i, i]

theorem lazyAuthStep_start_auth (tok : String) (s : LazyAuthState) (i : Nat)
    (hp : s.phase i = .notStarted) (hn : s.needsAuthentication = true) :
    lazyAuthStep tok s i =
      { s with loginCalls := s.loginCalls + 1,
               phase := fun j => if j = i then .awaitingLogin else s.phase j } := by
  rw [show lazyAuthStep tok s i = lazyAuthPhaseStep tok s i (s.phase i) from rfl, hp]
  simp only [lazyAuthPhaseStep]
  rw [if_pos hn]

theorem lazyAuthStep_start_noauth (tok : String) (s : LazyAuthState) (i : Nat)
    (hp : s.phase i = .notStarted) (hn : s.needsAuthentication = false) :
    lazyAuthStep tok s i =
      { s with phase := fun j => if j = i then .finished else s.phase j } := by
  rw [show lazyAuthStep tok s i = lazyAuthPhaseStep tok s i (s.phase i) from rfl, hp]
  simp only [lazyAuthPhaseStep]
  rw [if_neg (by simp [hn])]

theorem lazyAuthStep_finished (tok : String) (s : LazyAuthState) (i : Nat)
    (hp : s.phase i = .finished) : lazyAuthStep tok s i = s := by
  rw [show lazyAuthStep tok s i = lazyAuthPhaseStep tok s i (s.phase i) from rfl, hp]
  rfl

theorem seqSchedule_succ (n : Nat) : seqSchedule (n + 1) = seqSchedule n ++ [n, n] := by
  simp [seqSchedule, List.range_succ]

theorem runLazyAuth_append (tok : String) (l₁ l₂ : List Nat) (s : LazyAuthState) :
    runLazyAuth tok (l₁ ++ l₂) s = runLazyAuth tok l₂ (runLazyAuth tok l₁ s) := by
  induction l₁ generalizing s with
  | nil => rfl
  | cons i rest ih => simp [runLazyAuth, ih]

theorem lazy_auth_seq_invariant (tok : String) : ∀ n, 1 ≤ n →
    (runLazyAuth tok (seqSchedule n) lazyAuthInit).needsAuthentication = false ∧
    (runLazyAuth tok (seqSchedule n) lazyAuthInit).loginCalls = 1 ∧
    (runLazyAuth tok (seqSchedule n) lazyAuthInit).header = some ("Bearer " ++ tok) ∧
    (∀ i, i < n → (runLazyAuth tok (seqSchedule n) lazyAuthInit).phase i = .finished) ∧
    (∀ i, n ≤ i → (runLazyAuth tok (seqSchedule n) lazyAuthInit).phase i = .notStarted) := by
  intro n hn
  induction n, hn using Nat.le_induction with
  | base =>
    have hrun : runLazyAuth tok (seqSchedule 1) lazyAuthInit =
        ⟨false, 1, some ("Bearer " ++ tok),
         fun j => if j = 0 then .finished
                  else (if j = 0 then .awaitingLogin else .notStarted)⟩ := rfl
    rw [hrun]
    refine ⟨rfl, rfl, rfl, ?_, ?_⟩
    · intro i hi
      have h0 : i = 0 := by omega
      subst h0
      rfl
    · intro i hi
      have h0 : i ≠ 0 := by omega
      show (if i = 0 then TaskPhase.finished
            else (if i = 0 then TaskPhase.awaitingLogin else TaskPhase.notStarted)) =
          TaskPhase.notStarted
      rw [if_neg h0, if_neg h0]
  | succ n hn ih =>
    obtain ⟨ih1, ih2, ih3, ih4, ih5⟩ := ih
    have hrun : runLazyAuth tok (seqSchedule (n + 1)) lazyAuthInit =
        lazyAuthStep tok (lazyAuthStep tok (runLazyAuth tok (seqSchedule n) lazyAuthInit) n) n := by
      rw [seqSchedule_succ, runLazyAuth_append]
      rfl
    have hstep1 : lazyAuthStep tok (runLazyAuth tok (seqSchedule n) lazyAuthInit) n =
        { runLazyAuth tok (seqSchedule n) lazyAuthInit with
          phase := fun j => if j = n then .finished
                            else (runLazyAuth tok (seqSchedule n) lazyAuthInit).phase j } :=
      lazyAuthStep_start_noauth tok _ n (ih5 n le_rfl) ih1
    have hstep2 : lazyAuthStep tok
        { runLazyAuth tok (seqSchedule n) lazyAuthInit with
          phase := fun j => if j = n then .finished
                            else (runLazyAuth tok (seqSchedule n) lazyAuthInit).phase j } n =
        { runLazyAuth tok (seqSchedule n) lazyAuthInit with
          phase := fun j => if j = n then .finished
                            else (runLazyAuth tok (seqSchedule n) lazyAuthInit).phase j } :=
      lazyAuthStep_finished tok _ n (by simp)
    rw [hrun, hstep1, hstep2]
    refine ⟨ih1, ih2, ih3, ?_, ?_⟩
    · intro i hi
      show (if i = n then TaskPhase.finished
            else (runLazyAuth tok (seqSchedule n) lazyAuthInit).phase i) = TaskPhase.finished
      by_cases hin : i = n
      · rw [if_pos hin]
      · rw [if_neg hin]
        exact ih4 i (by omega)
    · intro i hi
      show (if i = n then TaskPhase.finished
            else (runLazyAuth tok (seqSchedule n) lazyAuthInit).phase i) = TaskPhase.notStarted
      rw [if_neg (by omega)]
      exact ih5 i (by omega)

/-- C3 counterexample: two concurrent first callers, interleaved so each
checks `_needs_authentication` before either login response lands, both
complete — and two login exchanges are issued, not one. -/
theorem lazy_auth_concurrent_double_login :
    (runLazyAuth "tok" [0, 1, 0, 1] lazyAuthInit).phase 0 = .finished ∧
    (runLazyAuth "tok" [0, 1, 0, 1] lazyAuthInit).phase 1 = .finished ∧
    (runLazyAuth "tok" [0, 1, 0, 1] lazyAuthInit).loginCalls = 2 ∧
    ¬ (runLazyAuth "tok" [0, 1, 0, 1] lazyAuthInit).loginCalls = 1 := by
  decide

/-- C3 (amended): the async client's lazy login has no in-flight guard, so
only when the N first calls run without overlap — each to completion before
the next starts — is exactly one login exchange issued; authentication is then
resolved, and the one bearer credential is shared by all N callers. -/
theorem lazy_auth_sequential_single_login (tok : String) (n : Nat) (hn : 1 ≤ n) :
    (runLazyAuth tok (seqSchedule n) lazyAuthInit).loginCalls = 1 ∧
    (runLazyAuth tok (seqSchedule n) lazyAuthInit).needsAuthentication = false ∧
    (runLazyAuth tok (seqSchedule n) lazyAuthInit).header = some ("Bearer " ++ tok) ∧
    ∀ i, i < n → (runLazyAuth tok (seqSchedule n) lazyAuthInit).phase i = .finished := by
  obtain ⟨h1, h2, h3, h4, h5⟩ := lazy_auth_seq_invariant tok n hn
  exact ⟨h2, h1, h3, h4⟩

/-- Concrete check of `lazy_auth_sequential_single_login` with 3 callers. -/
theorem lazy_auth_sequential_single_login_witness :
    (runLazyAuth "tok" (seqSchedule 3) lazyAuthInit).loginCalls = 1 ∧
    (runLazyAuth "tok" (seqSchedule 3) lazyAuthInit).header = some ("Bearer " ++ "tok") ∧
    (runLazyAuth "tok" (seqSchedule 3) lazyAuthInit).phase 2 = .finished :=
  ⟨(lazy_auth_sequential_single_login "tok" 3 (by decide)).1,
   (lazy_auth_sequential_single_login "tok" 3 (by decide)).2.2.1,
   (lazy_auth_sequential_single_login "tok" 3 (by decide)).2.2.2 2 (by decide)⟩

/-! ### Login exchange and credential resolution (C7)

`_authenticate_with_login` (the sync and async bodies are line-identical)
base64-encodes the UTF-8 password, POSTs `{"email": username, "password":
<encoded>}` to `urljoin(self.host, "/api/v1/users/login")`, checks the status,
and reads `accessToken` from the decoded response. The raise for a missing or
falsy token sits inside the `try`, so the blanket `except Exception` re-wraps
it as `Login failed: Login successful but no access token received`; every
failure is an `OpenMetadataError` (the spec's AuthenticationError).

The blocking `__init__` runs this exchange at construction; the non-blocking
`__init__` only records `_needs_authentication = True` and `_make_request`
runs the exchange on the first call. -/

/-- UTF-8 bytes of one character (`str.encode()`). -/
def utf8Bytes (c : Char) : List Nat :=
  let n := c.toNat
  if n < 128 then [n]
  else if n < 2048 then [192 + n / 64, 128 + n % 64]
  else if n < 65536 then [224 + n / 4096, 128 + (n / 64) % 64, 128 + n % 64]
  else [240 + n / 262144, 128 + (n / 4096) % 64, 128 + (n / 64) % 64, 128 + n % 64]

def strBytes (s : String) : List Nat := s.data.flatMap utf8Bytes

def b64chars : List Char :=
  "ABCDEFGHIJKLMNOPQRSTUVWXYZabcdefghijklmnopqrstuvwxyz0123456789+/".data

def b64char (n : Nat) : Char := b64chars.getD n 'A'

/-- `base64.b64encode`: standard base64 with `=` padding. -/
def b64encode : List Nat → String
  | [] => ""
  | [a] => String.mk [b64char (a / 4), b64char (a % 4 * 16)] ++ "=="
  | [a, b] => String.mk [b64char (a / 4), b64char (a % 4 * 16 + b / 16),
      b64char (b % 16 * 4)] ++ "="
  | a :: b :: c :: rest =>
    String.mk [b64char (a / 4), b64char (a % 4 * 16 + b / 16),
      b64char (b % 16 * 4 + c / 64), b64char (c % 64)] ++ b64encode rest

/-- `base64.b64encode(password.encode()).decode()`. -/
def b64encodeStr (s : String) : String := b64encode (strBytes s)

/-- Python `host.rstrip("/")`. -/
def rstripSlash (s : String) : String :=
  String.mk ((s.data.reverse.dropWhile (· = '/')).reverse)

/-- A JSON field value as far as token extraction cares: `null` or a string. -/
inductive JsonTok
  | null
  | str (s : String)
deriving DecidableEq

/-- The decoded login response; `accessToken = none` models a response that
omits the field (`dict.get` yields `None` for both an absent field and an
explicit `null`; they are distinguished here only to mirror the claim). -/
structure LoginResponse where
  accessToken : Option JsonTok
deriving DecidableEq

/-- The login POST as issued: target URL, `email` field, `password` field
(already base64-encoded). -/
structure LoginRequest where
  url : String
  email : String
  password : String
deriving DecidableEq

/-- What the login endpoint does with the POST: an error status
(`raise_for_status` raises), a decoded JSON response, or a transport-level
exception. -/
inductive LoginOutcome
  | httpError (status : Nat) (text : String)
  | ok (resp : LoginResponse)
  | netError (msg : String)
deriving DecidableEq

/-- The two constructor-visible failure kinds: no credentials at all
(ConfigurationError) and a failed login exchange (AuthenticationError). Both
are raised as `OpenMetadataError` in the code. -/
inductive AuthFailure
  | configurationError (msg : String)
  | authenticationError (msg : String)
deriving DecidableEq

/-- The login POST `_authenticate_with_login` builds:
`urljoin(self.host, "/api/v1/users/login")` — `self.host` is already
slash-stripped and holds no path, so the absolute-path join appends — with
body `{"email": self._username, "password": encoded_password}`. -/
def loginRequestOf (host username password : String) : LoginRequest :=
  ⟨host ++ "/api/v1/users/login", username, b64encodeStr password⟩

/-- `access_token = login_response.get("accessToken"); if not access_token:`
— falsy for an absent field, a JSON null, and an empty string. -/
def extractAccessToken : Option JsonTok → Except AuthFailure String
  | some (.str t) =>
    if t = "" then
      .error (.authenticationError
        "Login failed: Login successful but no access token received")
    else .ok t
  | _ => .error (.authenticationError
      "Login failed: Login successful but no access token received")

/-- The `try/except` of `_authenticate_with_login` around the POST result. -/
def handleLoginOutcome : LoginOutcome → Except AuthFailure String
  | .httpError status text =>
    .error (.authenticationError ("Login failed: HTTP " ++ toString status ++ ": " ++ text))
  | .netError msg => .error (.authenticationError ("Login failed: " ++ msg))
  | .ok resp => extractAccessToken resp.accessToken

/-- `_authenticate_with_login`: POST the login request to the server and
handle the outcome; returns the extracted token on success. -/
def authenticate_with_login (host username password : String)
    (server : LoginRequest → LoginOutcome) : Except AuthFailure String :=
  handleLoginOutcome (server (loginRequestOf host username password))

/-- Python truthiness of an optional string argument (`if api_token:`):
false for absent and for empty. -/
def pyTruthy : Option String → Bool
  | none => false
  | some s => decide (s ≠ "")

/-- The sync client as far as authentication is observable: host and the
`Authorization` header of its session. -/
structure SyncClientState where
  host : String
  authHeader : Option String
deriving DecidableEq

/-- Wrap a login result into the constructed client
(`self.session.headers["Authorization"] = f"Bearer {access_token}"`), or
propagate the raise out of `__init__`. -/
def applyLoginResult (host : String) :
    Except AuthFailure String → Except AuthFailure SyncClientState
  | .ok t => .ok ⟨host, some ("Bearer " ++ t)⟩
  | .error e => .error e

/-- `OpenMetadataClient.__init__`: a truthy token is used verbatim; otherwise
truthy username and password run the login exchange at construction;
otherwise `OpenMetadataError` (ConfigurationError). -/
def OpenMetadataClient_init (host : String) (api_token username password : Option String)
    (server : LoginRequest → LoginOutcome) : Except AuthFailure SyncClientState :=
  if pyTruthy api_token then
    .ok ⟨rstripSlash host, some ("Bearer " ++ api_token.getD "")⟩
  else if pyTruthy username && pyTruthy password then
    applyLoginResult (rstripSlash host)
      (authenticate_with_login (rstripSlash host) (username.getD "") (password.getD "") server)
  else
    .error (.configurationError "Either API token or username/password must be provided")

/-- The async client as far as authentication is observable. -/
structure AsyncClientState where
  host : String
  authHeader : Option String
  needsAuthentication : Bool
deriving DecidableEq

/-- `AsyncOpenMetadataClient.__init__`: same branching as the sync client, but
the credentials branch only sets `_needs_authentication = True`; no login call
happens at construction. -/
def AsyncOpenMetadataClient_init (host : String)
    (api_token username password : Option String) : Except AuthFailure AsyncClientState :=
  if pyTruthy api_token then
    .ok ⟨rstripSlash host, some ("Bearer " ++ api_token.getD ""), false⟩
  else if pyTruthy username && pyTruthy password then
    .ok ⟨rstripSlash host, none, true⟩
  else
    .error (.configurationError "Either API token or username/password must be provided")

/-- Successful async login: header set, `_needs_authentication = False`. -/
def applyAsyncLoginResult (host : String) :
    Except AuthFailure String → Except AuthFailure AsyncClientState
  | .ok t => .ok ⟨host, some ("Bearer " ++ t), false⟩
  | .error e => .error e

/-- The authentication prefix of `AsyncOpenMetadataClient._make_request`: on a
call with `_needs_authentication` set, run the login exchange first; a login
failure surfaces at this first call. -/
def asyncEnsureAuth (c : AsyncClientState) (username password : String)
    (server : LoginRequest → LoginOutcome) : Except AuthFailure AsyncClientState :=
  if c.needsAuthentication then
    applyAsyncLoginResult c.host (authenticate_with_login c.host username password server)
  else .ok c

/-- C7: with username/password credentials the login exchange POSTs
`{email: username, password: base64(password)}` to the fixed
`/api/v1/users/login` endpoint and extracts `accessToken` from the response.
When the response omits the token field or carries null, the client raises
AuthenticationError — at construction for the blocking client, while the
non-blocking client constructs successfully (login deferred) and raises at
its first call; a non-empty token is extracted and becomes the bearer header
of either client. -/
theorem login_exchange_and_token_errors (host username password : String)
    (server : LoginRequest → LoginOutcome)
    (hu : username ≠ "") (hp : password ≠ "") :
    (loginRequestOf (rstripSlash host) username password).url =
      rstripSlash host ++ "/api/v1/users/login" ∧
    (loginRequestOf (rstripSlash host) username password).email = username ∧
    (loginRequestOf (rstripSlash host) username password).password = b64encodeStr password ∧
    AsyncOpenMetadataClient_init host none (some username) (some password) =
      .ok ⟨rstripSlash host, none, true⟩ ∧
    ∀ resp, server (loginRequestOf (rstripSlash host) username password) = .ok resp →
      ((resp.accessToken = none ∨ resp.accessToken = some .null →
        OpenMetadataClient_init host none (some username) (some password) server =
          .error (.authenticationError
            "Login failed: Login successful but no access token received") ∧
        asyncEnsureAuth ⟨rstripSlash host, none, true⟩ username password server =
          .error (.authenticationError
            "Login failed: Login successful but no access token received")) ∧
      (∀ t, t ≠ "" → resp.accessToken = some (.str t) →
        OpenMetadataClient_init host none (some username) (some password) server =
          .ok ⟨rstripSlash host, some ("Bearer " ++ t)⟩ ∧
        asyncEnsureAuth ⟨rstripSlash host, none, true⟩ username password server =
          .ok ⟨rstripSlash host, some ("Bearer " ++ t), false⟩)) := by
  have hsync_unfold :
      OpenMetadataClient_init host none (some username) (some password) server =
        applyLoginResult (rstripSlash host)
          (authenticate_with_login (rstripSlash host) username password server) := by
    unfold OpenMetadataClient_init
    rw [if_neg (by simp [pyTruthy]), if_pos (by simp [pyTruthy, hu, hp])]
    rfl
  have hasync_ensure :
      asyncEnsureAuth ⟨rstripSlash host, none, true⟩ username password server =
        applyAsyncLoginResult (rstripSlash host)
          (authenticate_with_login (rstripSlash host) username password server) := by
    unfold asyncEnsureAuth
    rw [if_pos rfl]
  refine ⟨rfl, rfl, rfl, ?_, ?_⟩
  · unfold AsyncOpenMetadataClient_init
    rw [if_neg (by simp [pyTruthy]), if_pos (by simp [pyTruthy, hu, hp])]
  · intro resp hresp
    have hauth : authenticate_with_login (rstripSlash host) username password server =
        extractAccessToken resp.accessToken := by
      unfold authenticate_with_login
      rw [hresp]
      rfl
    constructor
    · intro htok
      have hext : extractAccessToken resp.accessToken =
          .error (.authenticationError
            "Login failed: Login successful but no access token received") := by
        rcases htok with h | h
        · rw [h]; rfl
        · rw [h]; rfl
      rw [hsync_unfold, hasync_ensure, hauth, hext]
      exact ⟨rfl, rfl⟩
    · intro t ht htok
      have hext : extractAccessToken resp.accessToken = .ok t := by
        rw [htok]
        simp only [extractAccessToken]
        rw [if_neg ht]
      rw [hsync_unfold, hasync_ensure, hauth, hext]
      exact ⟨rfl, rfl⟩

/-- A login endpoint that answers `{"accessToken": null}` to every request. -/
def nullTokenServer : LoginRequest → LoginOutcome := fun _ => .ok ⟨some .null⟩

/-- Concrete check of `login_exchange_and_token_errors`: username/password
against a server replying `{"accessToken": null}` — the blocking client fails
at construction, the non-blocking client fails at its first call. -/
theorem login_exchange_and_token_errors_witness :
    OpenMetadataClient_init "http://localhost:8585" none (some "admin") (some "secret")
        nullTokenServer =
      .error (.authenticationError
        "Login failed: Login successful but no access token received") ∧
    AsyncOpenMetadataClient_init "http://localhost:8585" none (some "admin") (some "secret") =
      .ok ⟨rstripSlash "http://localhost:8585", none, true⟩ ∧
    asyncEnsureAuth ⟨rstripSlash "http://localhost:8585", none, true⟩ "admin" "secret"
        nullTokenServer =
      .error (.authenticationError
        "Login failed: Login successful but no access token received") :=
  have h := login_exchange_and_token_errors "http://localhost:8585" "admin" "secret"
    nullTokenServer (by decide) (by decide)
  have hnull := (h.2.2.2.2 ⟨some .null⟩ rfl).1 (Or.inr rfl)
  ⟨hnull.1, h.2.2.2.1, hnull.2⟩
